import Mathlib

/-!
Verification model of the mcptodo task manager.

This file gives a shallow embedding, in Lean, of the three core pieces of
the repository:

  * the natural-language due-date resolver `parse_due_date`
    (src/mcp_server.py, lines 31-98);
  * the retry decorator `retry_on_failure`
    (src/task_utils.py lines 10-29, identical copy in src/mcp_client_llm.py
    lines 42-61);
  * the task-intake pipeline nodes (src/task_nodes.py): the priority,
    due-date and category enrichment stages, the task assembler, and the
    linear pipeline that composes them (src/graph.py).

External collaborators are modelled as parameters:

  * the third-party `dateparser.parse` call is a parameter
    `dp : String -> Option PyDateTime` (its failures are `none`);
  * the language-model capability `llm.call` is a parameter
    `llm : String -> String` (a deterministic capability double);
  * Python exceptions raised by a wrapped operation are modelled with
    `Except`, attempt by attempt: `op : Nat -> Except E A` gives the outcome
    of each invocation of the wrapped coroutine.

Python string primitives used by the source (`str.strip`, `str.lower`,
`in` substring test, `str.replace(w, "")`, and the regular-expression
search for the numeric time pattern) are modelled by executable functions
on the character list of a `String`, so that every theorem below can be
evaluated on concrete inputs by `decide`.
-/

/-- Model of Python `str.lower` restricted to the character ranges the
program uses: ASCII letters, the basic Cyrillic capital row А-Я, and Ё. -/
def lowerChar (c : Char) : Char :=
  if 'A' ≤ c ∧ c ≤ 'Z' then Char.ofNat (c.toNat + 32)
  else if 0x410 ≤ c.toNat ∧ c.toNat ≤ 0x42F then Char.ofNat (c.toNat + 32)
  else if c.toNat = 0x401 then Char.ofNat 0x451
  else c

/-- Model of Python `str.lower` on a whole string. -/
def pyLower (s : String) : String := ⟨s.data.map lowerChar⟩

/-- Model of Python `str.strip()`: drop leading and trailing whitespace. -/
def pyStrip (s : String) : String :=
  ⟨((s.data.dropWhile Char.isWhitespace).reverse.dropWhile Char.isWhitespace).reverse⟩

/-- Auxiliary scan for the substring test: does `pat` occur as a prefix of
any suffix of the list? -/
def infixOfAux (pat : List Char) : List Char → Bool
  | [] => pat.isEmpty
  | c :: rest => pat.isPrefixOf (c :: rest) || infixOfAux pat rest

/-- Model of the Python substring test `w in text`. -/
def strContains (text w : String) : Bool := infixOfAux w.data text.data

/-- Auxiliary for `strRemoveAll`: one left-to-right pass deleting each
non-overlapping occurrence of `pat`; `fuel` bounds the number of steps and
is instantiated with the length of the list, which suffices because every
step consumes at least one character. -/
def removeAllAux (pat : List Char) : Nat → List Char → List Char
  | _, [] => []
  | 0, l => l
  | fuel + 1, c :: rest =>
    if pat.isPrefixOf (c :: rest) && !pat.isEmpty then
      removeAllAux pat fuel (List.drop (pat.length - 1) rest)
    else
      c :: removeAllAux pat fuel rest

/-- Model of Python `text.replace(w, "")`: delete every non-overlapping
occurrence of `w`, scanning left to right. -/
def strRemoveAll (text w : String) : String :=
  ⟨removeAllAux w.data text.data.length text.data⟩

/-- Decimal digit character. -/
def digitChar (n : Nat) : Char := Char.ofNat (48 + n)

/-- Decimal digits of a positive number, most significant first; `fuel`
bounds recursion depth. -/
def natDigitsAux : Nat → Nat → List Char
  | 0, _ => []
  | _ + 1, 0 => []
  | fuel + 1, n + 1 => natDigitsAux fuel ((n + 1) / 10) ++ [digitChar ((n + 1) % 10)]

/-- Decimal rendering of a natural number. -/
def natToString (n : Nat) : String :=
  if n = 0 then "0" else ⟨natDigitsAux n n⟩

/-- Two-digit zero-padded rendering, as Python `%02d` inside isoformat. -/
def pad2 (n : Nat) : String :=
  if n < 10 then "0" ++ natToString n else natToString n

/-- Four-digit zero-padded rendering for years, as Python `%04d`. -/
def pad4 (n : Nat) : String :=
  if n < 10 then "000" ++ natToString n
  else if n < 100 then "00" ++ natToString n
  else if n < 1000 then "0" ++ natToString n
  else natToString n

/-- Model of a Python `datetime.datetime` value as produced by
`dateparser.parse` (microseconds are zero in all behaviors the program
relies on, so they are omitted). -/
structure PyDateTime where
  year : Nat
  month : Nat
  day : Nat
  hour : Nat
  minute : Nat
  second : Nat
deriving DecidableEq

/-- Model of Python `datetime.isoformat()` with zero microseconds:
"YYYY-MM-DDTHH:MM:SS". -/
def isoformatDT (d : PyDateTime) : String :=
  pad4 d.year ++ "-" ++ pad2 d.month ++ "-" ++ pad2 d.day ++ "T" ++
    pad2 d.hour ++ ":" ++ pad2 d.minute ++ ":" ++ pad2 d.second

/-- Model of Python `datetime.date().isoformat()`: "YYYY-MM-DD". -/
def isoformatD (d : PyDateTime) : String :=
  pad4 d.year ++ "-" ++ pad2 d.month ++ "-" ++ pad2 d.day

/-- Separator accepted by the numeric time pattern: `[:.]`. -/
def isTimeSep (c : Char) : Bool := c = ':' || c = '.'

/-- Core of a two-digit-hour numeric time match `\d\d[:.]\d\d` starting at
the head of the list. -/
def twoDigitTime : List Char → Bool
  | a :: b :: c :: d :: e :: _ =>
    a.isDigit && b.isDigit && isTimeSep c && d.isDigit && e.isDigit
  | _ => false

/-- Core of a one-digit-hour numeric time match `\d[:.]\d\d` starting at
the head of the list. -/
def oneDigitTime : List Char → Bool
  | a :: b :: c :: d :: _ =>
    a.isDigit && isTimeSep b && c.isDigit && d.isDigit
  | _ => false

/-- Word character for the `\b` boundary of Python `re` (unicode mode),
restricted to the scripts the program uses: ASCII letters and digits,
underscore, and the Cyrillic block. -/
def isWordChar (c : Char) : Bool :=
  c.isAlpha || c.isDigit || c = '_' || (0x400 ≤ c.toNat && c.toNat ≤ 0x4FF)

/-- The `\b` boundary before the match: start of string or a non-word
character (the first matched character is a digit, hence a word character). -/
def boundaryBefore : Option Char → Bool
  | none => true
  | some c => !isWordChar c

/-- The `\b` boundary after the match: end of string or a non-word
character (the last matched character is a digit). -/
def boundaryAfter : List Char → Bool
  | [] => true
  | c :: _ => !isWordChar c

/-- Match of the code's anchored pattern `\b\d{1,2}[:.]\d{2}\b` at the head
of the list, with `prev` the character immediately before it; the
two-alternative disjunction reflects the backtracking of the greedy
`\d{1,2}`. -/
def boundMatchAt (prev : Option Char) (l : List Char) : Bool :=
  (boundaryBefore prev && twoDigitTime l && boundaryAfter (l.drop 5)) ||
  (boundaryBefore prev && oneDigitTime l && boundaryAfter (l.drop 4))

/-- Scan of `re.search` over every start position, threading the previous
character for the leading boundary. -/
def timePatternAux : Option Char → List Char → Bool
  | _, [] => false
  | prev, c :: rest => boundMatchAt prev (c :: rest) || timePatternAux (some c) rest

/-- Model of `re.search(r"\b\d{1,2}[:.]\d{2}\b", s)` truthiness, the exact
pattern of src/mcp_server.py line 93. -/
def hasTimePattern (s : String) : Bool := timePatternAux none s.data

/-- Match of the unanchored pattern `\d{1,2}[:.]\d{2}` at the head of the
list. Modelled from the spec: section 4.2 step 7 and claim C6 write the
numeric time pattern without the word boundaries `\b` that the code uses;
this definition follows the spec's words for comparison with
`hasTimePattern`. -/
def looseMatchAt (l : List Char) : Bool := twoDigitTime l || oneDigitTime l

/-- Scan of `re.search` for the unanchored spec pattern. -/
def looseTimeAux : List Char → Bool
  | [] => false
  | c :: rest => looseMatchAt (c :: rest) || looseTimeAux rest

/-- Model of `re.search(r"\d{1,2}[:.]\d{2}", s)` truthiness, the pattern as
written in the spec (no word boundaries). -/
def hasTimePatternLoose (s : String) : Bool := looseTimeAux s.data

/-- The fixed lexicon of time-of-day tokens of src/mcp_server.py lines
52-62, in the scan order of the Python dict literal. -/
def time_overrides : List (String × Nat × Nat) :=
  [("утром", 9, 0), ("днём", 13, 0), ("днем", 13, 0), ("вечером", 18, 0),
   ("ночью", 23, 0), ("morning", 9, 0), ("afternoon", 13, 0),
   ("evening", 18, 0), ("night", 23, 0)]

/-- The token-scanning loop of src/mcp_server.py lines 65-70: find the
first lexicon word contained in `text`; on a match record its hour/minute,
delete every occurrence of the word and strip the result, then break. -/
def scanOverrides : List (String × Nat × Nat) → String → Option (Nat × Nat) × String
  | [], text => (none, text)
  | (w, h, m) :: rest, text =>
    if strContains text w then (some (h, m), pyStrip (strRemoveAll text w))
    else scanOverrides rest text

/-- Model of `parse_due_date` (src/mcp_server.py lines 31-98). The
`dateparser.parse` call is the parameter `dp`; a `none` input or an empty
string short-circuits to `none`; a parse failure gives `none`; a matched
time-of-day token overrides hour and minute of the parsed value; otherwise
the anchored numeric time pattern on the original raw string decides
between the full date-time and the date-only rendering. The Lean function
is total, which models the source's contract of never raising. -/
def parse_due_date (dp : String → Option PyDateTime) (raw_due : Option String) :
    Option String :=
  match raw_due with
  | none => none
  | some raw =>
    if raw = "" then none
    else
      let scanned := scanOverrides time_overrides (pyLower (pyStrip raw))
      match dp scanned.2 with
      | none => none
      | some parsed =>
        match scanned.1 with
        | some hm => some (isoformatDT { parsed with hour := hm.1, minute := hm.2 })
        | none =>
          if hasTimePattern raw then some (isoformatDT parsed)
          else some (isoformatD parsed)

/-- The text actually handed to `dateparser.parse` for a raw phrase: the
trimmed, lowered phrase after the token-scanning loop ran on it. -/
def effectiveText (raw : String) : String :=
  (scanOverrides time_overrides (pyLower (pyStrip raw))).2

deriving instance DecidableEq for Except

/-- Observable trace of one call of the retry wrapper: the final outcome
(`Except.error none` models the Python `raise last_exception` firing while
`last_exception` is still `None`, which raises a TypeError), the number of
invocations of the wrapped operation, and the log of sleeps performed, one
entry of the configured delay per sleep. -/
structure RetryTrace (E A D : Type) where
  result : Except (Option E) A
  calls : Nat
  sleeps : List D
deriving DecidableEq

/-- The loop body of `retry_on_failure` (src/task_utils.py lines 16-27,
identically src/mcp_client_llm.py lines 46-57): `remaining` is the number
of iterations the Python `for attempt in range(max_retries)` loop still
has, `attempt` the current index, and the last three arguments accumulate
`last_exception`, the call count and the sleep log. A success returns
immediately; a failure records the exception and sleeps only when
`attempt < max_retries - 1`; when the loop ends the accumulated
`last_exception` is raised. -/
def retryGo {E A D : Type} (op : Nat → Except E A) (maxRetries : Nat) (delay : D) :
    Nat → Nat → Option E → Nat → List D → RetryTrace E A D
  | 0, _, lastExc, calls, sleeps => ⟨Except.error lastExc, calls, sleeps⟩
  | remaining + 1, attempt, _lastExc, calls, sleeps =>
    match op attempt with
    | Except.ok a => ⟨Except.ok a, calls + 1, sleeps⟩
    | Except.error e =>
      if attempt < maxRetries - 1 then
        retryGo op maxRetries delay remaining (attempt + 1) (some e) (calls + 1)
          (sleeps ++ [delay])
      else
        retryGo op maxRetries delay remaining (attempt + 1) (some e) (calls + 1) sleeps

/-- Model of the decorator `retry_on_failure(max_retries, delay)` applied
to an operation whose outcome on attempt `i` is `op i`. -/
def retry_on_failure {E A D : Type} (maxRetries : Nat) (delay : D)
    (op : Nat → Except E A) : RetryTrace E A D :=
  retryGo op maxRetries delay maxRetries 0 none 0 []

/-- The same wrapper with the Python `int` argument kept signed: Python
`range(n)` is empty for every non-positive `n`, which `Int.toNat` models. -/
def retry_on_failure_int {E A D : Type} (maxRetries : Int) (delay : D)
    (op : Nat → Except E A) : RetryTrace E A D :=
  retry_on_failure maxRetries.toNat delay op

/-- The instruction prompt of the priority stage (src/task_nodes.py lines
24-34), an f-string embedding the task description. -/
def priorityPrompt (description : String) : String :=
  "\n    Ты помощник для управления задачами.\n    Определи приоритет следующей задачи:\n\n    Задача: \"" ++
    description ++
    "\"\n\n    Приоритет нужно нормализовать в одно из значений:\n    low, normal, high.\n\n    Верни только слово с приоритетом.\n    "

/-- The instruction prompt of the due-date stage (src/task_nodes.py lines
44-52). -/
def duePrompt (description : String) : String :=
  "\n    Ты помощник для управления задачами.\n    Определи дату и время выполнения из описания задачи, если они указаны.\n\n    Задача: \"" ++
    description ++
    "\"\n\n    Верни дату/время в формате ISO 8601 (ГГГГ-ММ-ДД ЧЧ:ММ), \n    либо \"null\", если даты нет.\n    "

/-- The instruction prompt of the category stage (src/task_nodes.py lines
62-69). -/
def categoryPrompt (description : String) : String :=
  "\n    Ты помощник для управления задачами.\n    Отнеси задачу к одной из категорий:\n    [\"work\", \"personal\", \"shopping\", \"health\", \"other\"]\n\n    Задача: \"" ++
    description ++
    "\"\n\n    Верни только название категории.\n    "

/-- The assembled task dict built by `assemble_task_node`
(src/task_nodes.py lines 80-85). -/
structure AssembledTask where
  description : String
  priority : Option String
  due_date : Option String
  category : Option String
deriving DecidableEq

/-- The `TaskState` TypedDict of src/task_nodes.py lines 10-16. It has a
single due-date field, written by the due-date stage and read by the
assembler. -/
structure TaskState where
  description : String
  priority : Option String
  due_date : Option String
  category : Option String
  task : Option AssembledTask
  confirmation : Option String
deriving DecidableEq

/-- The fresh state a pipeline run starts from: only the description is
populated. -/
def initialState (description : String) : TaskState :=
  ⟨description, none, none, none, none, none⟩

/-- Model of `priority_node` (src/task_nodes.py lines 20-37): call the
completion capability on the priority prompt and store the stripped,
lower-cased response in the `priority` field. -/
def priority_node (llm : String → String) (state : TaskState) : TaskState :=
  { state with priority := some (pyLower (pyStrip (llm (priorityPrompt state.description)))) }

/-- Model of `due_date_node` (src/task_nodes.py lines 40-55): call the
completion capability on the due-date prompt and store the stripped
response, without lower-casing, in the `due_date` field. -/
def due_date_node (llm : String → String) (state : TaskState) : TaskState :=
  { state with due_date := some (pyStrip (llm (duePrompt state.description))) }

/-- Model of `category_node` (src/task_nodes.py lines 58-73): call the
completion capability on the category prompt and store the stripped,
lower-cased response in the `category` field. -/
def category_node (llm : String → String) (state : TaskState) : TaskState :=
  { state with category := some (pyLower (pyStrip (llm (categoryPrompt state.description)))) }

/-- Model of `assemble_task_node` (src/task_nodes.py lines 76-86): copy the
description and the three extracted fields, as they stand in the state,
into the assembled task. -/
def assemble_task_node (state : TaskState) : TaskState :=
  { state with
      task := some ⟨state.description, state.priority, state.due_date, state.category⟩ }

/-- The linear pipeline of src/graph.py lines 36-40 up to and including
assembly: priority, then due date, then category, then assemble. -/
def run_pipeline (llm : String → String) (description : String) : TaskState :=
  assemble_task_node
    (category_node llm (due_date_node llm (priority_node llm (initialState description))))

/-- Capability double for the C1 counterexample: the model answers every
prompt with a padded due-date text. -/
def llmRawDue : String → String := fun _ => " 2099-01-01 10:00 "

/-- Dateparser double for the C1 counterexample: it recognizes the phrase
left over once the resolver has removed the matched token "evening". -/
def dpMilk : String → Option PyDateTime :=
  fun s => if s = "buy milk tomorrow" then some ⟨2099, 1, 2, 0, 0, 0⟩ else none

/-- Dateparser double for the C2 witness. -/
def dpEveningNumeric : String → Option PyDateTime :=
  fun s => if s = "tomorrow  14:30" then some ⟨2025, 9, 18, 14, 30, 0⟩ else none

/-- Operation double that fails on every attempt, with distinct errors. -/
def opAlwaysFails : Nat → Except String Nat :=
  fun i => Except.error (if i = 0 then "boom0" else "boom1")

/-- The per-attempt error labels of `opAlwaysFails`. -/
def failMsg : Nat → String := fun i => if i = 0 then "boom0" else "boom1"

/-- Operation double that fails on attempt 0 and succeeds on attempt 1. -/
def opSecondTry : Nat → Except String Nat :=
  fun i => if i = 0 then Except.error "boom" else Except.ok 42

/-- Constant error label for `opSecondTry`. -/
def constBoom : Nat → String := fun _ => "boom"

/-- Dateparser double that never recognizes anything, for the C5 witness. -/
def dpNever : String → Option PyDateTime := fun _ => none

/-- Dateparser double for the C6 counterexample and related checks. -/
def dpAnyTo0705 : String → Option PyDateTime := fun _ => some ⟨2025, 1, 1, 7, 5, 0⟩

/-- Dateparser double for the C6 witness. -/
def dpDue1430 : String → Option PyDateTime :=
  fun s => if s = "due 14:30" then some ⟨2025, 10, 12, 14, 30, 0⟩ else none

/-- Dateparser double for the C7 witness. -/
def dpNextFriday : String → Option PyDateTime :=
  fun s => if s = "next friday" then some ⟨2025, 10, 17, 0, 0, 0⟩ else none

/-- Capability double for the C8 counterexample: the model answers in
upper case. -/
def llmUppercaseDate : String → String := fun _ => "  TOMORROW  "

/-- Dateparser double for the C10 witness: it recognizes the two-letter
residue left of "tonight night" after the token "night" is deleted. -/
def dpTonight : String → Option PyDateTime :=
  fun s => if s = "to" then some ⟨2025, 11, 5, 0, 0, 0⟩ else none

/-- The token-scanning loop returns the first lexicon entry, in scan
order, whose word is contained in the text, together with the stripped
residue of deleting that word; when no entry matches it leaves the text
unchanged. -/
theorem scanOverrides_eq_find (l : List (String × Nat × Nat)) (text : String) :
    scanOverrides l text =
      match l.find? (fun e => strContains text e.1) with
      | some e => (some (e.2.1, e.2.2), pyStrip (strRemoveAll text e.1))
      | none => (none, text) := by
  induction l with
  | nil => rfl
  | cons e rest ih =>
    obtain ⟨w, hh, mm⟩ := e
    by_cases hc : strContains text w
    · rw [List.find?_cons_of_pos _ (by simpa using hc)]
      simp [scanOverrides, hc]
    · rw [List.find?_cons_of_neg _ (by simpa using hc)]
      simp only [scanOverrides, hc, if_false, Bool.false_eq_true]
      exact ih

/-- Trace of the retry loop when every attempt in range fails: it runs to
exhaustion, counting one call per remaining iteration and one sleep per
iteration but the last, and raises the error of the final attempt. -/
theorem retryGo_all_fail {E A D : Type} (op : Nat → Except E A) (f : Nat → E)
    (N : Nat) (d : D) :
    ∀ remaining attempt lastExc calls sleeps,
      attempt + remaining = N → 1 ≤ remaining →
      (∀ i, i < N → op i = Except.error (f i)) →
      retryGo op N d remaining attempt lastExc calls sleeps =
        ⟨Except.error (some (f (N - 1))), calls + remaining,
          sleeps ++ List.replicate (remaining - 1) d⟩ := by
  intro remaining
  induction remaining with
  | zero => intro attempt lastExc calls sleeps hsum hge hf; omega
  | succ r ih =>
    intro attempt lastExc calls sleeps hsum hge hf
    have hop : op attempt = Except.error (f attempt) := hf attempt (by omega)
    cases r with
    | zero =>
      have hA : attempt = N - 1 := by omega
      subst hA
      have hlt : ¬ N - 1 < N - 1 := by omega
      simp [retryGo, hop, hlt]
    | succ r2 =>
      have hlt : attempt < N - 1 := by omega
      have hstep : retryGo op N d (r2 + 1 + 1) attempt lastExc calls sleeps =
          retryGo op N d (r2 + 1) (attempt + 1) (some (f attempt)) (calls + 1)
            (sleeps ++ [d]) := by
        simp [retryGo, hop, hlt]
      rw [hstep,
        ih (attempt + 1) (some (f attempt)) (calls + 1) (sleeps ++ [d]) (by omega)
          (by omega) hf]
      simp only [RetryTrace.mk.injEq]
      refine ⟨by trivial, by omega, ?_⟩
      simp [List.replicate_succ, List.append_assoc]

/-- Trace of the retry loop when the first success is at index `k`,
reached from attempt index `attempt ≤ k`: it performs the remaining
`k - attempt` failing calls with one sleep each, then the successful one. -/
theorem retryGo_first_success {E A D : Type} (op : Nat → Except E A) (f : Nat → E)
    (N k : Nat) (d : D) (v : A) :
    ∀ remaining attempt lastExc calls sleeps,
      attempt + remaining = N → attempt ≤ k → k < N →
      (∀ i, i < k → op i = Except.error (f i)) →
      op k = Except.ok v →
      retryGo op N d remaining attempt lastExc calls sleeps =
        ⟨Except.ok v, calls + (k - attempt) + 1,
          sleeps ++ List.replicate (k - attempt) d⟩ := by
  intro remaining
  induction remaining with
  | zero => intro attempt lastExc calls sleeps hsum hak hkN hfail hsucc; omega
  | succ r ih =>
    intro attempt lastExc calls sleeps hsum hak hkN hfail hsucc
    by_cases hek : attempt = k
    · subst hek
      simp [retryGo, hsucc]
    · have hlt : attempt < k := by omega
      have hop : op attempt = Except.error (f attempt) := hfail attempt hlt
      have hltN : attempt < N - 1 := by omega
      have hstep : retryGo op N d (r + 1) attempt lastExc calls sleeps =
          retryGo op N d r (attempt + 1) (some (f attempt)) (calls + 1)
            (sleeps ++ [d]) := by
        simp [retryGo, hop, hltN]
      rw [hstep,
        ih (attempt + 1) (some (f attempt)) (calls + 1) (sleeps ++ [d]) (by omega)
          (by omega) hkN hfail hsucc]
      simp only [RetryTrace.mk.injEq]
      refine ⟨by trivial, by omega, ?_⟩
      have hka : k - attempt = (k - (attempt + 1)) + 1 := by omega
      rw [hka]
      simp [List.replicate_succ, List.append_assoc]

/-- Every match of the anchored numeric time pattern at a position is a
match of the spec's unanchored pattern there. -/
theorem boundMatchAt_imp_loose (prev : Option Char) (l : List Char) :
    boundMatchAt prev l = true → looseMatchAt l = true := by
  intro hb
  simp only [boundMatchAt, Bool.or_eq_true, Bool.and_eq_true] at hb
  simp only [looseMatchAt, Bool.or_eq_true]
  rcases hb with ⟨⟨_, h2⟩, _⟩ | ⟨⟨_, h2⟩, _⟩
  · exact Or.inl h2
  · exact Or.inr h2

/-- A string matched by the code's anchored numeric time pattern is also
matched by the spec's unanchored one. -/
theorem timePatternAux_imp_loose :
    ∀ (l : List Char) (prev : Option Char),
      timePatternAux prev l = true → looseTimeAux l = true := by
  intro l
  induction l with
  | nil => intro prev h; simp [timePatternAux] at h
  | cons c rest ih =>
    intro prev h
    simp only [timePatternAux, Bool.or_eq_true] at h
    simp only [looseTimeAux, Bool.or_eq_true]
    rcases h with hb | hr
    · exact Or.inl (boundMatchAt_imp_loose prev (c :: rest) hb)
    · exact Or.inr (ih (some c) hr)

/-- C2: for every non-empty phrase containing a time-of-day token of the
fixed lexicon (first match in scan order, as `List.find?` over the lexicon
expresses) whose remaining text parses as a date, `parse_due_date` returns
the full date-time with that token's fixed hour and minute substituted —
with no hypothesis excluding an explicit numeric time from the phrase, so
the token's mapping wins even then. -/
theorem parse_due_date_time_of_day_override
    (dp : String → Option PyDateTime) (raw w : String) (hh mm : Nat) (d : PyDateTime)
    (hne : raw ≠ "")
    (hfind : time_overrides.find? (fun e => strContains (pyLower (pyStrip raw)) e.1) =
      some (w, hh, mm))
    (hdp : dp (pyStrip (strRemoveAll (pyLower (pyStrip raw)) w)) = some d) :
    parse_due_date dp (some raw) =
      some (isoformatDT { d with hour := hh, minute := mm }) := by
  have hscan : scanOverrides time_overrides (pyLower (pyStrip raw)) =
      (some (hh, mm), pyStrip (strRemoveAll (pyLower (pyStrip raw)) w)) := by
    rw [scanOverrides_eq_find, hfind]
  simp [parse_due_date, hne, hscan, hdp]

/-- Witness for C2: the phrase "tomorrow evening 14:30" carries both the
token "evening" and an explicit numeric time, and the resolver returns
18:00, the token's mapping, not 14:30. -/
theorem parse_due_date_time_of_day_override_witness :
    parse_due_date dpEveningNumeric (some "tomorrow evening 14:30") =
      some "2025-09-18T18:00:00" := by
  have h := parse_due_date_time_of_day_override dpEveningNumeric
    "tomorrow evening 14:30" "evening" 18 0 ⟨2025, 9, 18, 14, 30, 0⟩
    (by decide) (by decide) (by decide)
  exact h.trans (by decide)

/-- C5: a null input, an empty input, and a non-empty input on which the
date grammar fails all make `parse_due_date` return `none`; the Lean
model is a total function, which reflects that the source returns rather
than raising on these inputs. -/
theorem parse_due_date_unresolved_none (dp : String → Option PyDateTime) (raw : String)
    (hdp : dp (effectiveText raw) = none) :
    parse_due_date dp none = none ∧ parse_due_date dp (some "") = none ∧
      parse_due_date dp (some raw) = none := by
  refine ⟨rfl, rfl, ?_⟩
  by_cases hne : raw = ""
  · subst hne; rfl
  · rw [effectiveText] at hdp
    simp [parse_due_date, hne, hdp]

/-- Witness for C5 at the unparseable phrase "pineapple" and a date
grammar that recognizes nothing. -/
theorem parse_due_date_unresolved_none_witness :
    parse_due_date dpNever none = none ∧ parse_due_date dpNever (some "") = none ∧
      parse_due_date dpNever (some "pineapple") = none :=
  parse_due_date_unresolved_none dpNever "pineapple" (by decide)

/-- C6 (counterexample): the phrase "tomorrow 123:45" has no time-of-day
token, matches the claim's unanchored pattern \d{1,2}[:.]\d{2}, and
parses, yet `parse_due_date` returns the date-only value "2025-01-01"
because the code's pattern is anchored with the word boundaries \b, which
"123:45" fails. -/
theorem numeric_time_unanchored_pattern_cex :
    hasTimePatternLoose "tomorrow 123:45" = true
    ∧ hasTimePattern "tomorrow 123:45" = false
    ∧ (scanOverrides time_overrides (pyLower (pyStrip "tomorrow 123:45"))).1 = none
    ∧ parse_due_date dpAnyTo0705 (some "tomorrow 123:45") = some "2025-01-01"
    ∧ isoformatDT ⟨2025, 1, 1, 7, 5, 0⟩ = "2025-01-01T07:05:00"
    ∧ ("2025-01-01" : String) ≠ "2025-01-01T07:05:00" := by decide

/-- C6 (amended): for every phrase with no time-of-day token whose
original raw text, before any stripping, contains a match of the anchored
numeric time pattern \b\d{1,2}[:.]\d{2}\b of the code, and that parses,
`parse_due_date` returns the full date-time, not a date-only value. -/
theorem parse_due_date_numeric_time_datetime
    (dp : String → Option PyDateTime) (raw : String) (d : PyDateTime)
    (hne : raw ≠ "")
    (hover : (scanOverrides time_overrides (pyLower (pyStrip raw))).1 = none)
    (hpat : hasTimePattern raw = true)
    (hdp : dp (effectiveText raw) = some d) :
    parse_due_date dp (some raw) = some (isoformatDT d) := by
  rw [effectiveText] at hdp
  simp [parse_due_date, hne, hdp, hover, hpat]

/-- Witness for the amended C6 at the spec's own scenario "due 14:30". -/
theorem parse_due_date_numeric_time_datetime_witness :
    parse_due_date dpDue1430 (some "due 14:30") = some "2025-10-12T14:30:00" := by
  have h := parse_due_date_numeric_time_datetime dpDue1430 "due 14:30"
    ⟨2025, 10, 12, 14, 30, 0⟩ (by decide) (by decide) (by decide) (by decide)
  exact h.trans (by decide)

/-- C7: for every phrase containing neither a time-of-day token nor an
explicit numeric time (in the claim's unanchored sense, which implies the
absence of the code's anchored pattern too) that parses as a date,
`parse_due_date` returns the date component only, with no time part. -/
theorem parse_due_date_date_only
    (dp : String → Option PyDateTime) (raw : String) (d : PyDateTime)
    (hne : raw ≠ "")
    (hover : (scanOverrides time_overrides (pyLower (pyStrip raw))).1 = none)
    (hloose : hasTimePatternLoose raw = false)
    (hdp : dp (effectiveText raw) = some d) :
    parse_due_date dp (some raw) = some (isoformatD d) := by
  have hpat : hasTimePattern raw = false := by
    cases hx : hasTimePattern raw
    · rfl
    · have hl : looseTimeAux raw.data = true :=
        timePatternAux_imp_loose raw.data none hx
      rw [hasTimePatternLoose] at hloose
      simp [hl] at hloose
  rw [effectiveText] at hdp
  simp [parse_due_date, hne, hdp, hover, hpat]

/-- Witness for C7 at the spec's scenario "next Friday". -/
theorem parse_due_date_date_only_witness :
    parse_due_date dpNextFriday (some "next Friday") = some "2025-10-17" := by
  have h := parse_due_date_date_only dpNextFriday "next Friday"
    ⟨2025, 10, 17, 0, 0, 0⟩ (by decide) (by decide) (by decide) (by decide)
  exact h.trans (by decide)

/-- C10: token matching is the Python substring test, not a word-boundary
test: whenever the first lexicon entry whose word is merely contained in
the lowered, stripped phrase exists — also inside a longer word — the
override fires, and the date grammar is invoked on the phrase with every
non-overlapping occurrence of that word deleted and the result stripped. -/
theorem time_token_substring_match_removes_all
    (dp : String → Option PyDateTime) (raw w : String) (hh mm : Nat)
    (hne : raw ≠ "")
    (hfind : time_overrides.find? (fun e => strContains (pyLower (pyStrip raw)) e.1) =
      some (w, hh, mm)) :
    parse_due_date dp (some raw) =
      Option.map (fun d => isoformatDT { d with hour := hh, minute := mm })
        (dp (pyStrip (strRemoveAll (pyLower (pyStrip raw)) w))) := by
  have hscan : scanOverrides time_overrides (pyLower (pyStrip raw)) =
      (some (hh, mm), pyStrip (strRemoveAll (pyLower (pyStrip raw)) w)) := by
    rw [scanOverrides_eq_find, hfind]
  cases hdp : dp (pyStrip (strRemoveAll (pyLower (pyStrip raw)) w)) with
  | none => simp [parse_due_date, hne, hscan, hdp]
  | some d => simp [parse_due_date, hne, hscan, hdp]

/-- Witness for C10: in "tonight night" the token "night" occurs only
inside the longer word "tonight" and once as a free word; the override
fires with 23:00 and the grammar sees "to", the residue of deleting both
occurrences. -/
theorem time_token_substring_match_removes_all_witness :
    parse_due_date dpTonight (some "tonight night") = some "2025-11-05T23:00:00" := by
  have h := time_token_substring_match_removes_all dpTonight "tonight night"
    "night" 23 0 (by decide) (by decide)
  exact h.trans (by decide)

/-- C3: for every operation failing on all attempts and every attempt
budget N of at least 1, the wrapper performs exactly N invocations (with
one fixed-length sleep between consecutive ones) and raises the error of
the final attempt to the caller — the failure is never swallowed. -/
theorem retry_all_failures_raises_last {E A D : Type} (N : Nat) (d : D)
    (op : Nat → Except E A) (f : Nat → E)
    (hN : 1 ≤ N) (hf : ∀ i, i < N → op i = Except.error (f i)) :
    retry_on_failure N d op =
      ⟨Except.error (some (f (N - 1))), N, List.replicate (N - 1) d⟩ := by
  have h := retryGo_all_fail op f N d N 0 none 0 [] (by omega) hN hf
  simpa [retry_on_failure] using h

/-- Witness for C3: two attempts, both failing, give two calls and the
second attempt's error. -/
theorem retry_all_failures_raises_last_witness :
    retry_on_failure 2 (1 : Nat) opAlwaysFails =
      ⟨Except.error (some "boom1"), 2, [1]⟩ := by
  have h := retry_all_failures_raises_last 2 (1 : Nat) opAlwaysFails failMsg
    (by omega) (by decide)
  exact h.trans (by decide)

/-- C4: for every operation failing exactly on the first k attempts and
succeeding on attempt k, with k below the budget N, the wrapper returns
the success value after exactly k+1 invocations and exactly k sleeps of
the configured fixed delay — the sleep log is k copies of the one
configured delay, so there is no backoff growth. -/
theorem retry_eventual_success_counts {E A D : Type} (N k : Nat) (d : D)
    (op : Nat → Except E A) (f : Nat → E) (v : A)
    (hkN : k < N) (hfail : ∀ i, i < k → op i = Except.error (f i))
    (hsucc : op k = Except.ok v) :
    retry_on_failure N d op = ⟨Except.ok v, k + 1, List.replicate k d⟩ := by
  have h := retryGo_first_success op f N k d v N 0 none 0 [] (by omega) (by omega)
    hkN hfail hsucc
  simpa [retry_on_failure] using h

/-- Witness for C4 with N = 3 and k = 1: one failure, one sleep, then the
success value 42 on the second call. -/
theorem retry_eventual_success_counts_witness :
    retry_on_failure 3 (1 : Nat) opSecondTry = ⟨Except.ok 42, 2, [1]⟩ := by
  have h := retry_eventual_success_counts 3 1 (1 : Nat) opSecondTry constBoom 42
    (by omega) (by decide) (by decide)
  exact h.trans (by decide)

/-- C9: for every non-positive attempt budget the loop body of the wrapper
never executes, so the wrapped operation is never invoked, nothing is
slept, and the final raise fires with last_exception still None — modelled
as the outcome `Except.error none`, which in Python is the TypeError of
raising None. -/
theorem retry_zero_attempts_raises_none {E A D : Type} (n : Int) (d : D)
    (op : Nat → Except E A) (hn : n ≤ 0) :
    retry_on_failure_int n d op = ⟨Except.error none, 0, []⟩ := by
  have h0 : n.toNat = 0 := Int.toNat_eq_zero.mpr hn
  simp [retry_on_failure_int, h0, retry_on_failure, retryGo]

/-- Witness for C9 at budget -1: zero calls, zero sleeps, raise of None. -/
theorem retry_zero_attempts_raises_none_witness :
    retry_on_failure_int (-1) (1 : Nat) opAlwaysFails = ⟨Except.error none, 0, []⟩ :=
  retry_zero_attempts_raises_none (-1) (1 : Nat) opAlwaysFails (by decide)

/-- C1 (counterexample): a completed pipeline run over a capability double
whose due-date answer is the padded text " 2099-01-01 10:00 " assembles a
task whose due-date field is the trimmed raw model output, while the
resolver applied to the user's original phrase "buy milk tomorrow evening"
(with a date grammar recognizing the token-stripped residue) yields the
different value "2099-01-02T18:00:00"; the assembled field is the raw
model text, not the resolver-normalized value. -/
theorem assembled_due_date_not_resolver_value_cex :
    ((run_pipeline llmRawDue "buy milk tomorrow evening").task).map
        (fun t => t.due_date) = some (some "2099-01-01 10:00")
    ∧ parse_due_date dpMilk (some "buy milk tomorrow evening") =
        some "2099-01-02T18:00:00"
    ∧ (some "2099-01-01 10:00" : Option String) ≠ some "2099-01-02T18:00:00" := by
  decide

/-- C1 (amended): for every completed pipeline run the assembled task's
due-date field equals the trimmed raw text-completion output of the
due-date stage; the pipeline state carries a single due-date field, so no
separate resolver-normalized value exists in the pipeline and the raw
model text is what assembly copies. -/
theorem assembled_due_date_equals_raw_model_output (llm : String → String)
    (description : String) :
    ((run_pipeline llm description).task).map (fun t => t.due_date) =
      some (some (pyStrip (llm (duePrompt description)))) := rfl

/-- C8 (counterexample): the due-date stage stores the model response
"  TOMORROW  " merely trimmed, as "TOMORROW", not trimmed and lower-cased
as "tomorrow" — the claimed lower-casing normalization does not happen in
this stage. -/
theorem due_date_stage_no_lowercase_cex :
    (due_date_node llmUppercaseDate (initialState "x")).due_date = some "TOMORROW"
    ∧ pyLower (pyStrip (llmUppercaseDate (duePrompt "x"))) = "tomorrow"
    ∧ ("TOMORROW" : String) ≠ "tomorrow" := by decide

/-- C8 (amended): for every raw model response, the priority and category
stages write the whitespace-trimmed, lower-cased response into their one
field of the state, while the due-date stage writes the whitespace-trimmed
response without lower-casing; each stage writes exactly its own field and
leaves every other field unchanged, as the record-update form states. -/
theorem enrichment_stage_writes_normalized_field (llm : String → String)
    (st : TaskState) :
    priority_node llm st =
      { st with priority := some (pyLower (pyStrip (llm (priorityPrompt st.description)))) }
    ∧ due_date_node llm st =
      { st with due_date := some (pyStrip (llm (duePrompt st.description))) }
    ∧ category_node llm st =
      { st with category := some (pyLower (pyStrip (llm (categoryPrompt st.description)))) } :=
  ⟨rfl, rfl, rfl⟩
